import Mathlib

/-!
Verification development for the ContextDbExtension browser extension.

The development shallowly embeds the federated-search, context-composition
and panel-lifecycle logic of the extension:

* `src/chrome_extension/content.js` — side-panel search (`performPanelSearch`),
  result rendering and context composition, save flow (`saveTextToDatabase`),
  panel open/close (`hideSidePanel`, `forceHideLoadingState`).
* `src/unnamed/part_000` — the popup script: `performSearch`, `createDatabase`,
  `deleteDatabase`, `createContextText`, selection tracking.
* `src/unnamed/part_001` — the earlier content-script variant of
  `saveTextToDatabase`.

Scores returned by the backend are floating-point similarity values used only
through order comparisons; they are modelled as rationals (`ℚ`).  JavaScript
`Array.prototype.sort` with the comparator `(a, b) => b.score - a.score` is a
stable descending sort by score; it is modelled by the stable insertion sort
`sortScoreDesc`, for which sortedness, permutation and stability lemmas are
proved below.  A JavaScript `Set` iterates in insertion order; it is modelled
as a duplicate-free list (`jsSetAdd`, `jsSetDelete`).
-/

/-- Model of JavaScript `String.prototype.trim`: strip whitespace from both
ends of the string. -/
def jsTrim (s : String) : String :=
  ⟨((s.data.dropWhile Char.isWhitespace).reverse.dropWhile Char.isWhitespace).reverse⟩

/-- Model of `Math.ceil(a / b)` for natural `a` and positive natural `b`,
computed the way natural-number ceiling division is: `(a + b - 1) / b`. -/
def jsCeilDiv (a b : ℕ) : ℕ := (a + b - 1) / b

/-- The model of `Math.ceil(a / b)` agrees with the Mathlib ceiling division. -/
theorem jsCeilDiv_eq_ceilDiv (a b : ℕ) : jsCeilDiv a b = a ⌈/⌉ b :=
  (Nat.ceilDiv_eq_add_pred_div a b).symm

/-- One row of a backend `POST /search` response: `{ text, score }` (the
opaque metadata bag is irrelevant to every property below). -/
structure Row where
  text : String
  score : ℚ
deriving DecidableEq

/-- A search row after ALL-scope provenance tagging:
`{ ...result, database_name: db.name }` (content.js:523, popup part_000:338). -/
structure TaggedRow where
  text : String
  score : ℚ
  database_name : String
deriving DecidableEq

/-- One entry of the backend `GET /databases` response:
`{ name, document_count }`. -/
structure SourceDb where
  name : String
  document_count : ℕ
deriving DecidableEq

/-- The JSON body of a `POST /search` request
(content.js:519, popup part_000:328). -/
structure SearchRequest where
  database_name : String
  query : String
  limit : ℕ
  min_score : ℚ
deriving DecidableEq

/-- Insertion step of the stable descending sort: the new element `x` is
placed before the first element whose score is not larger than `score x`,
so an element inserted from further left in the original list stays before
every equal-scored element. -/
def insertScoreDesc {α : Type} (score : α → ℚ) (x : α) : List α → List α
  | [] => [x]
  | y :: ys => if score x < score y then y :: insertScoreDesc score x ys else x :: y :: ys

/-- Model of `allResults.sort((a, b) => b.score - a.score)` (content.js:539,
popup part_000:352): the stable descending sort by score mandated for
`Array.prototype.sort` by the ECMAScript specification. -/
def sortScoreDesc {α : Type} (score : α → ℚ) : List α → List α
  | [] => []
  | x :: xs => insertScoreDesc score x (sortScoreDesc score xs)

theorem mem_insertScoreDesc {α : Type} (score : α → ℚ) (x b : α) (l : List α) :
    b ∈ insertScoreDesc score x l ↔ b = x ∨ b ∈ l := by
  induction l with
  | nil => simp [insertScoreDesc]
  | cons y ys ih =>
    by_cases hc : score x < score y
    · simp only [insertScoreDesc, if_pos hc, List.mem_cons, ih]
      try tauto
    · simp only [insertScoreDesc, if_neg hc, List.mem_cons]
      try tauto

theorem perm_insertScoreDesc {α : Type} (score : α → ℚ) (x : α) (l : List α) :
    List.Perm (insertScoreDesc score x l) (x :: l) := by
  induction l with
  | nil => exact List.Perm.refl _
  | cons y ys ih =>
    by_cases hc : score x < score y
    · simp only [insertScoreDesc, if_pos hc]
      exact (ih.cons y).trans (List.Perm.swap x y ys)
    · simp only [insertScoreDesc, if_neg hc]
      exact List.Perm.refl _

theorem perm_sortScoreDesc {α : Type} (score : α → ℚ) (l : List α) :
    List.Perm (sortScoreDesc score l) l := by
  induction l with
  | nil => exact List.Perm.refl _
  | cons x xs ih =>
    exact (perm_insertScoreDesc score x (sortScoreDesc score xs)).trans (ih.cons x)

theorem pairwise_insertScoreDesc {α : Type} (score : α → ℚ) (x : α) (l : List α)
    (h : l.Pairwise fun a b => score b ≤ score a) :
    (insertScoreDesc score x l).Pairwise fun a b => score b ≤ score a := by
  induction l with
  | nil => simp [insertScoreDesc]
  | cons y ys ih =>
    rw [List.pairwise_cons] at h
    by_cases hc : score x < score y
    · simp only [insertScoreDesc, if_pos hc]
      rw [List.pairwise_cons]
      refine ⟨?_, ih h.2⟩
      intro b hb
      rcases (mem_insertScoreDesc score x b ys).1 hb with hbx | hby
      · exact hbx ▸ le_of_lt hc
      · exact h.1 b hby
    · simp only [insertScoreDesc, if_neg hc]
      rw [List.pairwise_cons]
      refine ⟨?_, List.pairwise_cons.2 h⟩
      intro b hb
      rcases List.mem_cons.1 hb with hby | hbys
      · exact hby ▸ not_lt.1 hc
      · exact le_trans (h.1 b hbys) (not_lt.1 hc)

theorem pairwise_sortScoreDesc {α : Type} (score : α → ℚ) (l : List α) :
    (sortScoreDesc score l).Pairwise fun a b => score b ≤ score a := by
  induction l with
  | nil => simp [sortScoreDesc]
  | cons x xs ih => exact pairwise_insertScoreDesc score x (sortScoreDesc score xs) ih

theorem filter_insertScoreDesc {α : Type} (score : α → ℚ) (s : ℚ) (x : α) (l : List α) :
    (insertScoreDesc score x l).filter (fun a => decide (score a = s)) =
      (x :: l).filter (fun a => decide (score a = s)) := by
  induction l with
  | nil => rfl
  | cons y ys ih =>
    by_cases hc : score x < score y
    · have step : insertScoreDesc score x (y :: ys) = y :: insertScoreDesc score x ys := by
        simp only [insertScoreDesc, if_pos hc]
      rw [step]
      by_cases hx : score x = s
      · have hy : ¬ score y = s := by
          intro hys
          rw [hx, hys] at hc
          exact lt_irrefl s hc
        simp [List.filter_cons, hx, hy, ih]
      · by_cases hy : score y = s
        · simp [List.filter_cons, hx, hy, ih]
        · simp [List.filter_cons, hx, hy, ih]
    · have step : insertScoreDesc score x (y :: ys) = x :: y :: ys := by
        simp only [insertScoreDesc, if_neg hc]
      rw [step]

theorem filter_sortScoreDesc {α : Type} (score : α → ℚ) (s : ℚ) (l : List α) :
    (sortScoreDesc score l).filter (fun a => decide (score a = s)) =
      l.filter (fun a => decide (score a = s)) := by
  induction l with
  | nil => rfl
  | cons x xs ih =>
    calc (sortScoreDesc score (x :: xs)).filter (fun a => decide (score a = s))
        = ((x :: sortScoreDesc score xs).filter (fun a => decide (score a = s))) :=
          filter_insertScoreDesc score s x (sortScoreDesc score xs)
      _ = (x :: xs).filter (fun a => decide (score a = s)) := by
          simp only [List.filter_cons, ih]

/-- Provenance tagging of one raw search row, modelling the spread
`({ ...r, database_name: db.name })` of content.js:523. -/
def tagRow (dbName : String) (r : Row) : TaggedRow :=
  ⟨r.text, r.score, dbName⟩

/-- Per-database request limit of the panel ALL-scope search
(content.js:513): `Math.max(5, Math.ceil(limit / Math.max(1, dbs.length)) + 1)`. -/
def panelPerDbLimit (limit dbCount : ℕ) : ℕ :=
  max 5 (jsCeilDiv limit (max 1 dbCount) + 1)

/-- Per-database request limit of the popup ALL-scope search
(part_000:331): `Math.ceil(limit / databases.length) + 2`. -/
def popupPerDbLimit (limit dbCount : ℕ) : ℕ :=
  jsCeilDiv limit dbCount + 2

/-- The `POST /search` request bodies built by the panel ALL-scope fan-out
(content.js:514-519), one per database, in database-list order. -/
def panelSearchRequests (dbs : List SourceDb) (query : String) (limit : ℕ)
    (minScore : ℚ) : List SearchRequest :=
  dbs.map fun db => ⟨db.name, query, panelPerDbLimit limit dbs.length, minScore⟩

/-- The `POST /search` request bodies built by the popup ALL-scope fan-out
(part_000:323-334), one per database; the popup hard-codes `min_score: 0.3`. -/
def popupSearchRequests (dbs : List SourceDb) (query : String) (limit : ℕ) :
    List SearchRequest :=
  dbs.map fun db => ⟨db.name, query, popupPerDbLimit limit dbs.length, mkRat 3 10⟩

/-- One branch of the panel fan-out (content.js:514-524): a failed request —
non-ok status or thrown fetch error, modelled as `none` — yields `[]`, a
successful one yields its rows tagged with the database name. -/
def searchOneDb (responses : SearchRequest → Option (List Row)) (query : String)
    (perDb : ℕ) (minScore : ℚ) (db : SourceDb) : List TaggedRow :=
  match responses ⟨db.name, query, perDb, minScore⟩ with
  | none => []
  | some res => res.map (tagRow db.name)

/-- The concatenation `resultsByDb.flat()` of all panel fan-out branches
(content.js:526-527), in database order. -/
def panelAllTagged (dbs : List SourceDb) (responses : SearchRequest → Option (List Row))
    (query : String) (limit : ℕ) (minScore : ℚ) : List TaggedRow :=
  (dbs.map (searchOneDb responses query (panelPerDbLimit limit dbs.length) minScore)).flatten

/-- ALL-scope branch of `performPanelSearch` (content.js:509-543): fan out one
request per database, concatenate the surviving branch results, sort by
descending score and truncate to `limit` (`allResults.sort(...)`,
`allResults.slice(0, limit)`). -/
def performPanelSearchAll (dbs : List SourceDb) (responses : SearchRequest → Option (List Row))
    (query : String) (limit : ℕ) (minScore : ℚ) : List TaggedRow :=
  (sortScoreDesc TaggedRow.score (panelAllTagged dbs responses query limit minScore)).take limit

/-- Merge of the surviving (successful) partial results only, tagged with
their source, written the way spec §4.1 describes the merge; compared against
`performPanelSearchAll` in C1. -/
def survivingTagged (dbs : List SourceDb) (responses : SearchRequest → Option (List Row))
    (query : String) (limit : ℕ) (minScore : ℚ) : List TaggedRow :=
  (dbs.filterMap fun db =>
    (responses ⟨db.name, query, panelPerDbLimit limit dbs.length, minScore⟩).map
      fun res => res.map (tagRow db.name)).flatten

/-- Count of sources whose ALL-scope request failed, written the way spec
§4.1 describes it ("the ResultSet plus a count of sources that failed");
`performPanelSearch` computes no such value, which C3 makes precise. -/
def specFailedSourceCount (dbs : List SourceDb) (responses : SearchRequest → Option (List Row))
    (query : String) (limit : ℕ) (minScore : ℚ) : ℕ :=
  (dbs.filter fun db =>
    responses ⟨db.name, query, panelPerDbLimit limit dbs.length, minScore⟩ = none).length

/-- Replacement of every failed response by an empty successful one; used to
state failure isolation (the bulkhead policy) in C3. -/
def degradeFailures (responses : SearchRequest → Option (List Row)) :
    SearchRequest → Option (List Row) :=
  fun req => some ((responses req).getD [])

/-- Single-database branch of `performPanelSearch` (content.js:528-540):
`allResults = resp.ok ? await resp.json() : []`, then the shared
sort-and-truncate step `allResults.sort(...).slice(0, limit)`. -/
def performPanelSearchSingle (response : Option (List Row)) (limit : ℕ) : List Row :=
  (sortScoreDesc Row.score (response.getD [])).take limit

/-- Single-database branch of the popup `performSearch` (part_000:355-371):
the server rows are rendered as received, with no client-side sort or
truncation. -/
def popupSearchSingle (rows : List Row) : List Row :=
  rows

theorem flatten_map_eq_flatten_filterMap {σ β : Type} (f : σ → List β)
    (g : σ → Option (List β)) (h : ∀ x, f x = (g x).getD []) (l : List σ) :
    (l.map f).flatten = (l.filterMap g).flatten := by
  induction l with
  | nil => rfl
  | cons x xs ih =>
    rcases hg : g x with _ | rows
    · have hx : f x = [] := by rw [h x, hg]; rfl
      simp [List.filterMap_cons, hg, hx, ih]
    · have hx : f x = rows := by rw [h x, hg]; rfl
      simp [List.filterMap_cons, hg, hx, ih]

theorem panelAllTagged_eq_survivingTagged (dbs : List SourceDb)
    (responses : SearchRequest → Option (List Row)) (query : String) (limit : ℕ)
    (minScore : ℚ) :
    panelAllTagged dbs responses query limit minScore =
      survivingTagged dbs responses query limit minScore := by
  apply flatten_map_eq_flatten_filterMap
  intro db
  unfold searchOneDb
  rcases responses ⟨db.name, query, panelPerDbLimit limit dbs.length, minScore⟩ with _ | res
  · rfl
  · rfl

/-- Database list of the spec §8 scenario: sources A, B and C. -/
def c1Dbs : List SourceDb := [⟨"A", 3⟩, ⟨"B", 0⟩, ⟨"C", 5⟩]

/-- Response environment of the spec §8 scenario: A answers 3 rows, B fails,
C answers 5 rows. -/
def c1Responses : SearchRequest → Option (List Row) := fun req =>
  if req.database_name = "A" then
    some [⟨"a1", mkRat 9 10⟩, ⟨"a2", mkRat 8 10⟩, ⟨"a3", mkRat 7 10⟩]
  else if req.database_name = "C" then
    some [⟨"c1", mkRat 95 100⟩, ⟨"c2", mkRat 85 100⟩, ⟨"c3", mkRat 75 100⟩,
      ⟨"c4", mkRat 65 100⟩, ⟨"c5", mkRat 6 10⟩]
  else none

/-- Claim C1: for every ALL-scope `performPanelSearch` over a non-empty source
list, the returned result set equals the concatenation of the per-source
partial results of the sources whose requests succeeded (each tagged with its
source id), stable-sorted in descending score order (a permutation of the
surviving rows, pairwise non-increasing, with every equal-score class kept in
first-seen order), then truncated to `limit`; every returned row comes from a
source whose request succeeded; and in the scenario {A: 3 hits, B: failed,
C: 5 hits} with limit 5 exactly 5 results are returned, all drawn from A and C. -/
theorem C1_allScopeMergeRank (dbs : List SourceDb)
    (responses : SearchRequest → Option (List Row)) (query : String)
    (limit : ℕ) (minScore : ℚ) (hne : dbs ≠ []) :
    performPanelSearchAll dbs responses query limit minScore =
        (sortScoreDesc TaggedRow.score
          (survivingTagged dbs responses query limit minScore)).take limit
    ∧ List.Perm
        (sortScoreDesc TaggedRow.score (survivingTagged dbs responses query limit minScore))
        (survivingTagged dbs responses query limit minScore)
    ∧ (sortScoreDesc TaggedRow.score
        (survivingTagged dbs responses query limit minScore)).Pairwise
          (fun a b => b.score ≤ a.score)
    ∧ (∀ s : ℚ,
        (sortScoreDesc TaggedRow.score
            (survivingTagged dbs responses query limit minScore)).filter
            (fun r => decide (r.score = s)) =
          (survivingTagged dbs responses query limit minScore).filter
            (fun r => decide (r.score = s)))
    ∧ (∀ r ∈ performPanelSearchAll dbs responses query limit minScore,
        ∃ db ∈ dbs, r.database_name = db.name ∧
          ∃ rows,
            responses ⟨db.name, query, panelPerDbLimit limit dbs.length, minScore⟩ =
              some rows ∧ (⟨r.text, r.score⟩ : Row) ∈ rows)
    ∧ ((performPanelSearchAll c1Dbs c1Responses "q" 5 (mkRat 3 10)).length = 5
        ∧ ∀ r ∈ performPanelSearchAll c1Dbs c1Responses "q" 5 (mkRat 3 10),
            r.database_name = "A" ∨ r.database_name = "C") := by
  refine ⟨?_, perm_sortScoreDesc _ _, pairwise_sortScoreDesc _ _,
    fun s => filter_sortScoreDesc _ s _, ?_, by decide⟩
  · unfold performPanelSearchAll
    rw [panelAllTagged_eq_survivingTagged]
  · intro r hr
    have hr1 : r ∈ sortScoreDesc TaggedRow.score
        (panelAllTagged dbs responses query limit minScore) :=
      List.take_subset limit _ hr
    have hr2 : r ∈ panelAllTagged dbs responses query limit minScore :=
      (perm_sortScoreDesc TaggedRow.score _).mem_iff.1 hr1
    obtain ⟨sub, hsub, hrsub⟩ := List.mem_flatten.1 hr2
    obtain ⟨db, hdb, hdbsub⟩ := List.mem_map.1 hsub
    subst hdbsub
    rcases hresp : responses
        ⟨db.name, query, panelPerDbLimit limit dbs.length, minScore⟩ with _ | res
    · simp only [searchOneDb, hresp] at hrsub
      exact absurd hrsub (List.not_mem_nil r)
    · simp only [searchOneDb, hresp] at hrsub
      obtain ⟨row, hrow, htag⟩ := List.mem_map.1 hrsub
      subst htag
      exact ⟨db, hdb, rfl, res, hresp,
        (show (⟨row.text, row.score⟩ : Row) = row from rfl) ▸ hrow⟩

/-- Witness for C1 at the concrete spec §8 scenario. -/
theorem C1_allScopeMergeRank_witness :
    (performPanelSearchAll c1Dbs c1Responses "q" 5 (mkRat 3 10)).length = 5 :=
  (C1_allScopeMergeRank c1Dbs c1Responses "q" 5 (mkRat 3 10) (by decide)).2.2.2.2.2.1

theorem searchOneDb_degradeFailures (responses : SearchRequest → Option (List Row))
    (query : String) (perDb : ℕ) (minScore : ℚ) (db : SourceDb) :
    searchOneDb (degradeFailures responses) query perDb minScore db =
      searchOneDb responses query perDb minScore db := by
  unfold searchOneDb degradeFailures
  rcases responses ⟨db.name, query, perDb, minScore⟩ with _ | res
  · rfl
  · rfl

theorem searchOneDb_degradeFailures_fun (responses : SearchRequest → Option (List Row))
    (query : String) (perDb : ℕ) (minScore : ℚ) :
    searchOneDb (degradeFailures responses) query perDb minScore =
      searchOneDb responses query perDb minScore :=
  funext (searchOneDb_degradeFailures responses query perDb minScore)

/-- Two-source environment in which source B answers successfully with zero
rows. -/
def c3Dbs : List SourceDb := [⟨"A", 1⟩, ⟨"B", 1⟩]

/-- Response environment where B succeeds with an empty row list. -/
def c3ResponsesEmptyB : SearchRequest → Option (List Row) := fun req =>
  if req.database_name = "A" then some [⟨"a1", mkRat 9 10⟩] else some []

/-- Response environment where B fails. -/
def c3ResponsesFailedB : SearchRequest → Option (List Row) := fun req =>
  if req.database_name = "A" then some [⟨"a1", mkRat 9 10⟩] else none

/-- Counterexample to claim C3: `performPanelSearch` returns the identical
value whether source B fails or succeeds with zero rows, while the number of
failed sources differs (0 versus 1), so no count of failed sources is computed
or reported to the caller alongside the result set. -/
theorem C3_counterexample_noFailedCount :
    performPanelSearchAll c3Dbs c3ResponsesEmptyB "q" 5 (mkRat 3 10) =
        performPanelSearchAll c3Dbs c3ResponsesFailedB "q" 5 (mkRat 3 10)
    ∧ specFailedSourceCount c3Dbs c3ResponsesEmptyB "q" 5 (mkRat 3 10) = 0
    ∧ specFailedSourceCount c3Dbs c3ResponsesFailedB "q" 5 (mkRat 3 10) = 1 := by
  decide

/-- Claim C3 amended: each source whose request fails with a transport error
or non-success status is degraded to an empty partial result and does not
abort the ALL-scope search — replacing every failed response by an empty
successful one leaves the returned result set unchanged — but no count of
failed sources is computed or reported to the caller. -/
theorem C3_failureIsolation (dbs : List SourceDb)
    (responses : SearchRequest → Option (List Row)) (query : String)
    (limit : ℕ) (minScore : ℚ) :
    performPanelSearchAll dbs (degradeFailures responses) query limit minScore =
      performPanelSearchAll dbs responses query limit minScore := by
  simp only [performPanelSearchAll, panelAllTagged, searchOneDb_degradeFailures_fun]

/-- Two-source list for the C4 counterexample. -/
def c4Dbs : List SourceDb := [⟨"A", 1⟩, ⟨"B", 1⟩]

/-- Counterexample to claim C4: the popup ALL-scope search (part_000:331)
sends per-source limit `ceil(limit / sourceCount) + 2`, not
`max(5, ceil(limit / sourceCount) + 1)`: with limit 10 over 2 sources every
popup request carries 7, where the claimed formula gives 6. -/
theorem C4_counterexample_popupPerDbLimit :
    (popupSearchRequests c4Dbs "q" 10).map SearchRequest.limit = [7, 7]
    ∧ max 5 (jsCeilDiv 10 c4Dbs.length + 1) = 6
    ∧ (7 : ℕ) ≠ max 5 (jsCeilDiv 10 c4Dbs.length + 1) := by
  decide

/-- Claim C4 amended: with at least one known source, every request of the
panel ALL-scope fan-out (content.js:513) carries per-source limit
`max(5, ceil(limit / sourceCount) + 1)`, while every request of the popup
ALL-scope fan-out (part_000:331) carries `ceil(limit / sourceCount) + 2`. -/
theorem C4_perSourceRequestLimits (dbs : List SourceDb) (query : String)
    (limit : ℕ) (minScore : ℚ) (hne : dbs ≠ []) :
    (∀ req ∈ panelSearchRequests dbs query limit minScore,
        req.limit = max 5 (limit ⌈/⌉ dbs.length + 1))
    ∧ (∀ req ∈ popupSearchRequests dbs query limit,
        req.limit = limit ⌈/⌉ dbs.length + 2) := by
  have hlen : 1 ≤ dbs.length := List.length_pos.2 hne
  have hmax : max 1 dbs.length = dbs.length := max_eq_right hlen
  constructor
  · intro req hreq
    obtain ⟨db, _, hdbeq⟩ := List.mem_map.1 hreq
    rw [← hdbeq]
    show panelPerDbLimit limit dbs.length = max 5 (limit ⌈/⌉ dbs.length + 1)
    unfold panelPerDbLimit
    rw [hmax, jsCeilDiv_eq_ceilDiv]
  · intro req hreq
    obtain ⟨db, _, hdbeq⟩ := List.mem_map.1 hreq
    rw [← hdbeq]
    show popupPerDbLimit limit dbs.length = limit ⌈/⌉ dbs.length + 2
    unfold popupPerDbLimit
    rw [jsCeilDiv_eq_ceilDiv]

/-- Witness for C4 at a concrete request of the panel fan-out. -/
theorem C4_perSourceRequestLimits_witness :
    (⟨"A", "q", panelPerDbLimit 10 2, mkRat 3 10⟩ : SearchRequest).limit =
      max 5 (10 ⌈/⌉ c4Dbs.length + 1) :=
  (C4_perSourceRequestLimits c4Dbs "q" 10 (mkRat 3 10) (by decide)).1
    ⟨"A", "q", panelPerDbLimit 10 2, mkRat 3 10⟩ (by decide)

/-- Claim C8: a single-source panel search returns at most `limit` rows in
non-increasing score order, for every server response including failures; the
popup single-source branch renders the backend rows unchanged, preserving the
bound and the order whenever the backend supplies rows satisfying them. -/
theorem C8_singleSourceResultSet (response : Option (List Row)) (limit : ℕ) :
    (performPanelSearchSingle response limit).length ≤ limit
    ∧ (performPanelSearchSingle response limit).Pairwise
        (fun a b => b.score ≤ a.score)
    ∧ (∀ rows : List Row, rows.length ≤ limit →
        rows.Pairwise (fun a b => b.score ≤ a.score) →
        (popupSearchSingle rows).length ≤ limit
          ∧ (popupSearchSingle rows).Pairwise (fun a b => b.score ≤ a.score)) := by
  refine ⟨?_, ?_, fun rows h1 h2 => ⟨h1, h2⟩⟩
  · exact List.length_take_le limit _
  · exact (pairwise_sortScoreDesc Row.score (response.getD [])).sublist
      (List.take_sublist limit _)

/-- Witness for C8 at a concrete response and limit. -/
theorem C8_singleSourceResultSet_witness :
    (popupSearchSingle [⟨"a", mkRat 9 10⟩]).length ≤ 5 :=
  ((C8_singleSourceResultSet (some [⟨"a", mkRat 9 10⟩]) 5).2.2
    [⟨"a", mkRat 9 10⟩] (by decide) (by decide)).1

/-- JavaScript `Set.prototype.add` on a set of result indices: appends the
index if absent; `Set` iteration order is insertion order. -/
def jsSetAdd (s : List ℕ) (i : ℕ) : List ℕ :=
  if i ∈ s then s else s ++ [i]

/-- JavaScript `Set.prototype.delete` on a set of result indices. -/
def jsSetDelete (s : List ℕ) (i : ℕ) : List ℕ :=
  s.filter fun j => decide (j ≠ i)

theorem mem_jsSetAdd (s : List ℕ) (i j : ℕ) : j ∈ jsSetAdd s i ↔ j ∈ s ∨ j = i := by
  unfold jsSetAdd
  by_cases h : i ∈ s
  · rw [if_pos h]
    constructor
    · exact Or.inl
    · rintro (hj | rfl)
      · exact hj
      · exact h
  · rw [if_neg h]
    simp [List.mem_append]

theorem mem_jsSetDelete (s : List ℕ) (i j : ℕ) :
    j ∈ jsSetDelete s i ↔ j ∈ s ∧ j ≠ i := by
  simp [jsSetDelete, List.mem_filter]

/-- Straight ascending insertion step, used only by the spec-side compose. -/
def insertNatAsc (i : ℕ) : List ℕ → List ℕ
  | [] => [i]
  | j :: js => if i ≤ j then i :: j :: js else j :: insertNatAsc i js

/-- Ascending sort of index lists, used only by the spec-side compose. -/
def sortNatAsc : List ℕ → List ℕ
  | [] => []
  | i :: is => insertNatAsc i (sortNatAsc is)

/-- One rendered result item of the panel search results list, as the
create-context handler reads it back from the DOM (content.js:630-634): the
`data-full-text` attribute and the text of the `.contextdb-result-score`
element. -/
structure PanelResultItem where
  fullText : String
  scoreLabel : String
deriving DecidableEq

/-- One composed entry (content.js:635):
`## Context idx` / `**Relevance**: score` / the full text / `---`. -/
def contextEntry (n : ℕ) (item : PanelResultItem) : String :=
  "## Context " ++ toString n ++ "\n**Relevance**: " ++ item.scoreLabel ++
    "\n\n" ++ item.fullText ++ "\n\n---\n\n"

/-- The `searchSelectedResults.forEach` loop of the create-context handler
(content.js:630-637): visits the selected indices in `Set` iteration
(insertion) order, skips indices with no rendered node, and numbers the
emitted entries consecutively from 1. -/
def createContextLoop (nodes : List PanelResultItem) : List ℕ → ℕ → String
  | [], _ => ""
  | i :: rest, idx =>
    match nodes[i]? with
    | none => createContextLoop nodes rest idx
    | some item => contextEntry idx item ++ createContextLoop nodes rest (idx + 1)

/-- The create-context onclick handler (content.js:625-643): the header
`# Context Information` followed by one entry per selected index, iterated in
the insertion order of the selection `Set`. -/
def createContextText (nodes : List PanelResultItem) (sel : List ℕ) : String :=
  "# Context Information\n\n" ++ createContextLoop nodes sel 1

/-- Spec §4.4 version of compose, for comparison in C2: iterate the selected
indices in ascending original-rank order. -/
def createContextTextSpecAsc (nodes : List PanelResultItem) (sel : List ℕ) : String :=
  createContextText nodes (sortNatAsc sel)

/-- Three rendered result items for the C2 scenario. -/
def c2Nodes : List PanelResultItem :=
  [⟨"r0", "Match: 90.0%"⟩, ⟨"r1", "Match: 80.0%"⟩, ⟨"r2", "Match: 70.0%"⟩]

/-- Counterexample to claim C2: toggling result 2 and then result 0 into the
selection makes the `Set` iterate as [2, 0]; on a 3-item result set the
composed context lists the rank-2 entry before the rank-0 entry, differing
from the ascending-rank composition the claim states. -/
theorem C2_counterexample_setIterationOrder :
    jsSetAdd (jsSetAdd [] 2) 0 = [2, 0]
    ∧ createContextText c2Nodes [2, 0] ≠ createContextTextSpecAsc c2Nodes [2, 0] := by
  decide

/-- Claim C2 amended: the create-context handler iterates the selected indices
in the insertion (toggle) order of the selection `Set`, not ascending rank order:
toggling the distinct in-range indices i and then j into an empty selection
composes the entry for index i first and the entry for index j second. -/
theorem C2_composeInsertionOrder (nodes : List PanelResultItem) (i j : ℕ)
    (hij : i ≠ j) (hi : i < nodes.length) (hj : j < nodes.length) :
    createContextText nodes (jsSetAdd (jsSetAdd [] i) j) =
      "# Context Information\n\n" ++
        (contextEntry 1 nodes[i] ++ contextEntry 2 nodes[j]) := by
  have h1 : jsSetAdd [] i = [i] := by simp [jsSetAdd]
  have h2 : jsSetAdd [i] j = [i, j] := by
    simp [jsSetAdd, Ne.symm hij]
  rw [h1, h2]
  simp only [createContextText, createContextLoop, List.getElem?_eq_getElem hi,
    List.getElem?_eq_getElem hj, String.append_empty]

/-- Witness for C2 amended at the concrete toggle order 2 then 0. -/
theorem C2_composeInsertionOrder_witness :
    createContextText c2Nodes (jsSetAdd (jsSetAdd [] 2) 0) =
      "# Context Information\n\n" ++
        (contextEntry 1 ⟨"r2", "Match: 70.0%"⟩ ++ contextEntry 2 ⟨"r0", "Match: 90.0%"⟩) :=
  C2_composeInsertionOrder c2Nodes 2 0 (by decide) (by decide) (by decide)

/-- Rendered state of the panel search tab: the currently rendered result
items and the selection `Set` `searchSelectedResults` (content.js:12). -/
structure SearchPanelState where
  resultSet : List PanelResultItem
  selection : List ℕ
deriving DecidableEq

/-- Events of the panel search tab observable between network suspensions. -/
inductive SearchEvent
  | searchStart
  | searchCompleted (rs : List PanelResultItem)
  | searchFailed
  | toggle (i : ℕ)
  | selectAllClick
  | clearSelectionClick

/-- Transition function assembled from content.js. Each `performPanelSearch`
call replaces the rendered results with a placeholder and clears the selection
`Set` before awaiting the network (content.js:503-505); every settling
response — there is no cancellation, so a superseded search still settles
(spec section 5, last-write-wins) — either renders its rows via
`renderPanelSearchResults` (content.js:543, 551-581) or, on failure, replaces
the results with an error message (content.js:547), and neither path touches
the selection `Set`; a checkbox change toggles its index in or out of the
`Set` (content.js:584-590), and a checkbox exists exactly for the currently
rendered indices; Select All clears the `Set` and re-adds every rendered
index in order (content.js:615-619); Clear empties it (content.js:620-624). -/
def searchStep (s : SearchPanelState) : SearchEvent → SearchPanelState
  | SearchEvent.searchStart => ⟨[], []⟩
  | SearchEvent.searchCompleted rs => ⟨rs, s.selection⟩
  | SearchEvent.searchFailed => ⟨[], s.selection⟩
  | SearchEvent.toggle i =>
      if i < s.resultSet.length then
        if i ∈ s.selection then ⟨s.resultSet, jsSetDelete s.selection i⟩
        else ⟨s.resultSet, jsSetAdd s.selection i⟩
      else s
  | SearchEvent.selectAllClick => ⟨s.resultSet, List.range s.resultSet.length⟩
  | SearchEvent.clearSelectionClick => ⟨s.resultSet, []⟩

/-- Initial state: no results rendered, empty selection. -/
def searchInit : SearchPanelState := ⟨[], []⟩

/-- State of the panel search tab after a sequence of events. -/
def searchRun (evs : List SearchEvent) : SearchPanelState :=
  evs.foldl searchStep searchInit

/-- Number of searches started and not yet settled along a trace: the code
performs no cancellation, so each start adds one outstanding request and each
settling response (success or failure) removes one. -/
def pendingStep (p : ℕ) : SearchEvent → ℕ
  | SearchEvent.searchStart => p + 1
  | SearchEvent.searchCompleted _ => p - 1
  | SearchEvent.searchFailed => p - 1
  | SearchEvent.toggle _ => p
  | SearchEvent.selectAllClick => p
  | SearchEvent.clearSelectionClick => p

/-- Traces in which searches never overlap: a search starts only when none is
outstanding and every settling response matches the single outstanding
search. Spec section 5 expects the trigger layer to keep traces in this class
by debouncing, rather than by cancellation. -/
def noOverlap : ℕ → List SearchEvent → Bool
  | _, [] => true
  | p, SearchEvent.searchStart :: rest => p == 0 && noOverlap 1 rest
  | p, SearchEvent.searchCompleted _ :: rest => p == 1 && noOverlap 0 rest
  | p, SearchEvent.searchFailed :: rest => p == 1 && noOverlap 0 rest
  | p, SearchEvent.toggle _ :: rest => noOverlap p rest
  | p, SearchEvent.selectAllClick :: rest => noOverlap p rest
  | p, SearchEvent.clearSelectionClick :: rest => noOverlap p rest

/-- Inductive invariant for overlap-free traces, parameterized by the number
of outstanding searches: every selected index is in range of the rendered
result set, and while the single search is outstanding both the selection and
the rendered results are empty. -/
def SearchPanelInv (p : ℕ) (s : SearchPanelState) : Prop :=
  (∀ i ∈ s.selection, i < s.resultSet.length)
    ∧ (p = 1 → s.selection = [] ∧ s.resultSet = [])

theorem foldl_searchStep_inv (evs : List SearchEvent) (p : ℕ) (s : SearchPanelState)
    (hseq : noOverlap p evs = true) (h : SearchPanelInv p s) :
    SearchPanelInv (evs.foldl pendingStep p) (evs.foldl searchStep s) := by
  induction evs generalizing p s with
  | nil => exact h
  | cons e rest ih =>
    simp only [List.foldl_cons]
    cases e with
    | searchStart =>
      simp only [noOverlap, Bool.and_eq_true, beq_iff_eq] at hseq
      obtain ⟨hp, hrest⟩ := hseq
      refine ih _ _ (by rw [hp]; exact hrest) ⟨?_, ?_⟩
      · intro i hi
        simp only [searchStep] at hi
        cases hi
      · intro _
        exact ⟨rfl, rfl⟩
    | searchCompleted rs =>
      simp only [noOverlap, Bool.and_eq_true, beq_iff_eq] at hseq
      obtain ⟨hp, hrest⟩ := hseq
      have hsel : s.selection = [] := (h.2 hp).1
      refine ih _ _ (by rw [hp]; exact hrest) ⟨?_, ?_⟩
      · intro i hi
        simp only [searchStep] at hi
        rw [hsel] at hi
        cases hi
      · intro hp1
        rw [hp] at hp1
        exact absurd hp1 (by simp [pendingStep])
    | searchFailed =>
      simp only [noOverlap, Bool.and_eq_true, beq_iff_eq] at hseq
      obtain ⟨hp, hrest⟩ := hseq
      have hsel : s.selection = [] := (h.2 hp).1
      refine ih _ _ (by rw [hp]; exact hrest) ⟨?_, ?_⟩
      · intro i hi
        simp only [searchStep] at hi
        rw [hsel] at hi
        cases hi
      · intro hp1
        rw [hp] at hp1
        exact absurd hp1 (by simp [pendingStep])
    | toggle i =>
      simp only [noOverlap] at hseq
      refine ih _ _ hseq ⟨?_, ?_⟩
      · intro j hj
        by_cases hi : i < s.resultSet.length
        · by_cases hm : i ∈ s.selection
          · simp only [searchStep, if_pos hi, if_pos hm] at hj ⊢
            exact h.1 j ((mem_jsSetDelete s.selection i j).1 hj).1
          · simp only [searchStep, if_pos hi, if_neg hm] at hj ⊢
            rcases (mem_jsSetAdd s.selection i j).1 hj with hjs | rfl
            · exact h.1 j hjs
            · exact hi
        · simp only [searchStep, if_neg hi] at hj ⊢
          exact h.1 j hj
      · intro hp1
        have h2 := h.2 hp1
        have hi : ¬ i < s.resultSet.length := by
          rw [h2.2]
          exact Nat.not_lt_zero i
        simp only [searchStep, if_neg hi]
        exact h2
    | selectAllClick =>
      simp only [noOverlap] at hseq
      refine ih _ _ hseq ⟨?_, ?_⟩
      · intro j hj
        simp only [searchStep] at hj ⊢
        exact List.mem_range.1 hj
      · intro hp1
        have h2 := h.2 hp1
        simp only [searchStep]
        rw [h2.2]
        exact ⟨rfl, rfl⟩
    | clearSelectionClick =>
      simp only [noOverlap] at hseq
      refine ih _ _ hseq ⟨?_, ?_⟩
      · intro j hj
        simp only [searchStep] at hj
        cases hj
      · intro hp1
        have h2 := h.2 hp1
        simp only [searchStep]
        exact ⟨by trivial, h2.2⟩

/-- Items rendered by the superseded first search of the overlap trace. -/
def c5FirstItems : List PanelResultItem := [⟨"x0", "Match: 90.0%"⟩, ⟨"x1", "Match: 80.0%"⟩]

/-- Items rendered by the later-settling second search of the overlap trace. -/
def c5SecondItems : List PanelResultItem := [⟨"y0", "Match: 70.0%"⟩]

/-- Overlapping-search trace: two searches start (neither is cancelled), the
first settles and renders two items, the user toggles index 1, then the
second search settles and renders one item — the last-write-wins overlap spec
section 5 describes. -/
def c5OverlapTrace : List SearchEvent :=
  [SearchEvent.searchStart, SearchEvent.searchStart,
    SearchEvent.searchCompleted c5FirstItems, SearchEvent.toggle 1,
    SearchEvent.searchCompleted c5SecondItems]

/-- Counterexample to claim C5: when two searches overlap, a toggle made
between the two renders survives the later ResultSet replacement — afterwards
index 1 is still selected although the current result set has length 1, so at
an observable moment the selection is out of range and is retained across a
ResultSet replacement, contrary to the claimed invariant. -/
theorem C5_counterexample_overlapStaleSelection :
    1 ∈ (searchRun c5OverlapTrace).selection
    ∧ ¬ 1 < (searchRun c5OverlapTrace).resultSet.length
    ∧ (searchRun c5OverlapTrace).selection ≠ [] := by
  decide

/-- Claim C5 amended: every `performPanelSearch` clears the selection `Set`
synchronously when it starts, before its own result set is exposed; on every
overlap-free trace — spec section 5 expects the trigger layer to prevent
overlap, and the in-flight portion of a single search leaves both the
selection and the rendered results empty — every selected index is in range of
the rendered result set, and the render settling the outstanding search
exposes the new result set with an empty selection, never a partially
retained one. Under overlapping searches this fails (see the counterexample). -/
theorem C5_selectionInvariant (evs : List SearchEvent)
    (hseq : noOverlap 0 evs = true) :
    (∀ i ∈ (searchRun evs).selection, i < (searchRun evs).resultSet.length)
    ∧ (evs.foldl pendingStep 0 = 1 → (searchRun evs).selection = [])
    ∧ (∀ rs : List PanelResultItem, evs.foldl pendingStep 0 = 1 →
        (searchStep (searchRun evs) (SearchEvent.searchCompleted rs)).selection = [])
    ∧ (searchStep (searchRun evs) SearchEvent.searchStart).selection = [] := by
  have h : SearchPanelInv (evs.foldl pendingStep 0) (searchRun evs) :=
    foldl_searchStep_inv evs 0 searchInit hseq
      ⟨fun i hi => absurd hi (List.not_mem_nil i), fun h01 => absurd h01 (by decide)⟩
  refine ⟨h.1, fun hp => (h.2 hp).1, fun rs hp => ?_, rfl⟩
  simp only [searchStep]
  exact (h.2 hp).1

/-- Two rendered result items for the C5 witness trace. -/
def c5Items : List PanelResultItem := [⟨"r0", "Match: 90.0%"⟩, ⟨"r1", "Match: 80.0%"⟩]

/-- Witness for C5 on a concrete overlap-free trace: search, render two
results, toggle result 0; its selected index is in range. -/
theorem C5_selectionInvariant_witness :
    0 < (searchRun [SearchEvent.searchStart, SearchEvent.searchCompleted c5Items,
        SearchEvent.toggle 0]).resultSet.length :=
  (C5_selectionInvariant [SearchEvent.searchStart, SearchEvent.searchCompleted c5Items,
    SearchEvent.toggle 0] (by decide)).1 0 (by decide)


/-- UI state read and written by `saveTextToDatabase` (content.js:762-855). -/
structure SavePanelState where
  selectedText : String
  dbSelectValue : String
  panelBodyOpacity : String
  saveBtnDisabled : Bool
  saveBtnText : String
  statusMessage : String
deriving DecidableEq

/-- Exit paths of a dispatched save: HTTP success, a server-reported error
(non-ok status whose detail is thrown, content.js:807-809), or a thrown
fetch/network error. -/
inductive SaveOutcome
  | ok
  | httpError (detail : String)
  | fetchFailed (message : String)

/-- Model of `saveTextToDatabase` (content.js:762-855). The guard clauses
return a notification before any busy state is set; otherwise the body dims
the panel and marks the button busy (content.js:780-782), runs the request to
its outcome — which selects only the notification text; on the success path
`clearSelectedText` runs on a 2-second timer and so after this call returns —
and the `finally` block (content.js:837-854) restores opacity "1", recomputes
the enabled state of the button from the current database selection and selected
text, and resets the button label, on every exit path. -/
def saveTextToDatabase (st : SavePanelState) (outcome : SaveOutcome) : SavePanelState :=
  if jsTrim st.selectedText = "" then
    { st with statusMessage := "Please select some text first" }
  else if st.dbSelectValue = "" then
    { st with statusMessage := "Please select a database" }
  else
    let saving : SavePanelState :=
      { st with panelBodyOpacity := "0.6", saveBtnDisabled := true,
                saveBtnText := "Saving..." }
    let notified : SavePanelState :=
      match outcome with
      | SaveOutcome.ok =>
          { saving with statusMessage :=
              "Text saved successfully to \"" ++ st.dbSelectValue ++ "\" database!" }
      | SaveOutcome.httpError detail =>
          { saving with statusMessage := "Error saving text: " ++ detail }
      | SaveOutcome.fetchFailed message =>
          { saving with statusMessage := "Error saving text: " ++ message }
    { notified with
      panelBodyOpacity := "1",
      saveBtnDisabled :=
        !(decide (st.dbSelectValue ≠ "") && decide (jsTrim st.selectedText ≠ "")),
      saveBtnText := "Save Selected Text" }

/-- Claim C6: on every exit path of a dispatched save — success, server error
or thrown exception — the guaranteed `finally` cleanup leaves the panel
undimmed (opacity "1"), the save button re-labelled, and the button enabled
again: a non-busy, interactive state. -/
theorem C6_saveGuaranteedCleanup (st : SavePanelState) (outcome : SaveOutcome)
    (hText : jsTrim st.selectedText ≠ "") (hDb : st.dbSelectValue ≠ "") :
    (saveTextToDatabase st outcome).panelBodyOpacity = "1"
    ∧ (saveTextToDatabase st outcome).saveBtnText = "Save Selected Text"
    ∧ (saveTextToDatabase st outcome).saveBtnDisabled = false := by
  unfold saveTextToDatabase
  rw [if_neg hText, if_neg hDb]
  cases outcome <;> simp [hText, hDb]

/-- Witness for C6 at a concrete dispatched save whose request throws. -/
theorem C6_saveGuaranteedCleanup_witness :
    (saveTextToDatabase ⟨"hello world", "notes", "0.6", true, "Saving...", ""⟩
        (SaveOutcome.fetchFailed "Failed to fetch")).panelBodyOpacity = "1" :=
  (C6_saveGuaranteedCleanup ⟨"hello world", "notes", "0.6", true, "Saving...", ""⟩
    (SaveOutcome.fetchFailed "Failed to fetch") (by decide) (by decide)).1

/-- Panel visibility and busy state of the side panel: the `isPanelOpen`
global (content.js:8), the `contextdb-panel-open` class, the panel body
opacity, the save button label, and whether a save request is still
outstanding. -/
structure PanelLifecycleState where
  isPanelOpen : Bool
  openClassPresent : Bool
  panelBodyOpacity : String
  saveBtnText : String
  saveInFlight : Bool
deriving DecidableEq

/-- Panel lifecycle events relevant to closing while a save is in flight. -/
inductive PanelEvent
  | showPanel
  | userClose
  | saveStart
  | saveCompleted

/-- Transitions from content.js: `showSidePanel` (content.js:143-154) adds the
open class when closed; `hideSidePanel` (content.js:306-314) runs
`forceHideLoadingState` (content.js:858-892) — restoring opacity "1" and the
save button — and then removes the open class and clears `isPanelOpen`,
without cancelling any outstanding request; clicking Save in the open panel
dims the body and marks the button busy (content.js:780-782); when the
outstanding save settles, its `finally` block (content.js:837-854) restores
opacity and button label but never touches the open class or `isPanelOpen`. -/
def panelStep (s : PanelLifecycleState) : PanelEvent → PanelLifecycleState
  | PanelEvent.showPanel =>
      if s.isPanelOpen then s
      else { s with isPanelOpen := true, openClassPresent := true }
  | PanelEvent.userClose =>
      if s.isPanelOpen then
        { s with panelBodyOpacity := "1", saveBtnText := "Save Selected Text",
                 openClassPresent := false, isPanelOpen := false }
      else s
  | PanelEvent.saveStart =>
      if s.isPanelOpen then
        { s with panelBodyOpacity := "0.6", saveBtnText := "Saving...",
                 saveInFlight := true }
      else s
  | PanelEvent.saveCompleted =>
      if s.saveInFlight then
        { s with panelBodyOpacity := "1", saveBtnText := "Save Selected Text",
                 saveInFlight := false }
      else s

/-- Initial state: panel closed and idle. -/
def panelInit : PanelLifecycleState := ⟨false, false, "1", "Save Selected Text", false⟩

/-- State of the panel lifecycle after a sequence of events. -/
def panelRun (evs : List PanelEvent) : PanelLifecycleState :=
  evs.foldl panelStep panelInit

/-- Inductive invariant: the open class mirrors `isPanelOpen`, and a closed
panel is undimmed with an idle save button. -/
def PanelLifecycleInv (s : PanelLifecycleState) : Prop :=
  s.openClassPresent = s.isPanelOpen
    ∧ (s.isPanelOpen = false →
        s.panelBodyOpacity = "1" ∧ s.saveBtnText = "Save Selected Text")

theorem panelStep_inv (s : PanelLifecycleState) (e : PanelEvent)
    (h : PanelLifecycleInv s) : PanelLifecycleInv (panelStep s e) := by
  obtain ⟨hc, hidle⟩ := h
  cases e with
  | showPanel =>
    by_cases hopen : s.isPanelOpen = true
    · simpa [panelStep, hopen] using ⟨hc, hidle⟩
    · refine ⟨?_, ?_⟩ <;> simp [panelStep, Bool.of_not_eq_true hopen]
  | userClose =>
    by_cases hopen : s.isPanelOpen = true
    · refine ⟨?_, ?_⟩ <;> simp [panelStep, hopen]
    · simpa [panelStep, Bool.of_not_eq_true hopen] using ⟨hc, hidle⟩
  | saveStart =>
    by_cases hopen : s.isPanelOpen = true
    · refine ⟨?_, ?_⟩ <;> simp [panelStep, hopen, hc]
    · simpa [panelStep, Bool.of_not_eq_true hopen] using ⟨hc, hidle⟩
  | saveCompleted =>
    by_cases hfl : s.saveInFlight = true
    · refine ⟨?_, ?_⟩ <;> simp [panelStep, hfl, hc]
    · simpa [panelStep, hfl] using ⟨hc, hidle⟩

theorem foldl_panelStep_inv (evs : List PanelEvent) (s : PanelLifecycleState)
    (h : PanelLifecycleInv s) : PanelLifecycleInv (evs.foldl panelStep s) := by
  induction evs generalizing s with
  | nil => exact h
  | cons e rest ih => exact ih _ (panelStep_inv s e h)

theorem panelStep_saveCompleted_fields (t : PanelLifecycleState) :
    (panelStep t PanelEvent.saveCompleted).isPanelOpen = t.isPanelOpen
    ∧ (panelStep t PanelEvent.saveCompleted).openClassPresent = t.openClassPresent
    ∧ ((panelStep t PanelEvent.saveCompleted).panelBodyOpacity = "1"
        ∨ (panelStep t PanelEvent.saveCompleted).panelBodyOpacity = t.panelBodyOpacity)
    ∧ ((panelStep t PanelEvent.saveCompleted).saveBtnText = "Save Selected Text"
        ∨ (panelStep t PanelEvent.saveCompleted).saveBtnText = t.saveBtnText) := by
  by_cases hfl : t.saveInFlight = true
  · simp [panelStep, hfl]
  · simp [panelStep, hfl]

/-- Claim C7: from any reachable state, a user close yields the closed panel
state — open flag and open class cleared, no dimming, idle save button — even
if a save is still in flight; and the subsequent settling of that in-flight
save leaves the panel closed and undimmed, resurrecting nothing. -/
theorem C7_userCloseFullReset (evs : List PanelEvent) :
    ((panelStep (panelRun evs) PanelEvent.userClose).isPanelOpen = false
      ∧ (panelStep (panelRun evs) PanelEvent.userClose).openClassPresent = false
      ∧ (panelStep (panelRun evs) PanelEvent.userClose).panelBodyOpacity = "1"
      ∧ (panelStep (panelRun evs) PanelEvent.userClose).saveBtnText =
          "Save Selected Text")
    ∧ ((panelStep (panelStep (panelRun evs) PanelEvent.userClose)
          PanelEvent.saveCompleted).isPanelOpen = false
      ∧ (panelStep (panelStep (panelRun evs) PanelEvent.userClose)
          PanelEvent.saveCompleted).openClassPresent = false
      ∧ (panelStep (panelStep (panelRun evs) PanelEvent.userClose)
          PanelEvent.saveCompleted).panelBodyOpacity = "1"
      ∧ (panelStep (panelStep (panelRun evs) PanelEvent.userClose)
          PanelEvent.saveCompleted).saveBtnText = "Save Selected Text") := by
  have hinv : PanelLifecycleInv (panelRun evs) :=
    foldl_panelStep_inv evs panelInit (by refine ⟨rfl, ?_⟩; intro; exact ⟨rfl, rfl⟩)
  obtain ⟨hc, hidle⟩ := hinv
  have hclosed :
      (panelStep (panelRun evs) PanelEvent.userClose).isPanelOpen = false
      ∧ (panelStep (panelRun evs) PanelEvent.userClose).openClassPresent = false
      ∧ (panelStep (panelRun evs) PanelEvent.userClose).panelBodyOpacity = "1"
      ∧ (panelStep (panelRun evs) PanelEvent.userClose).saveBtnText =
          "Save Selected Text" := by
    by_cases hopen : (panelRun evs).isPanelOpen = true
    · refine ⟨?_, ?_, ?_, ?_⟩ <;> simp [panelStep, hopen]
    · have hfalse : (panelRun evs).isPanelOpen = false := Bool.of_not_eq_true hopen
      have h1 := hidle hfalse
      refine ⟨?_, ?_, ?_, ?_⟩ <;>
        simp [panelStep, hfalse, hc, h1.1, h1.2]
  refine ⟨hclosed, ?_⟩
  obtain ⟨e1, e2, e3, e4⟩ :=
    panelStep_saveCompleted_fields (panelStep (panelRun evs) PanelEvent.userClose)
  refine ⟨e1.trans hclosed.1, e2.trans hclosed.2.1, ?_, ?_⟩
  · rcases e3 with h | h
    · exact h
    · exact h.trans hclosed.2.2.1
  · rcases e4 with h | h
    · exact h
    · exact h.trans hclosed.2.2.2

/-- Local outcome of one `createDatabase` click in the popup (part_000:224-259
and its background.js popup variant, lines 413-456): either a local validation
rejection — empty trimmed name, or a name already present in the cached
`databases` list — which returns before any `fetch`, or the dispatch of the
`POST /databases` request for the trimmed name. -/
inductive CreateDbAction
  | rejectEmptyName
  | rejectDuplicate
  | sendCreateRequest (name : String)
deriving DecidableEq

/-- The guard logic of `createDatabase` (part_000:225-234): trim the input,
reject an empty name, reject a name for which
`databases.some(db => db.name === name)` holds, otherwise dispatch. -/
def createDatabaseAction (databases : List SourceDb) (input : String) : CreateDbAction :=
  if jsTrim input = "" then CreateDbAction.rejectEmptyName
  else if databases.any (fun db => db.name == jsTrim input) then
    CreateDbAction.rejectDuplicate
  else CreateDbAction.sendCreateRequest (jsTrim input)

/-- Claim C9: if a first `createDatabase` call dispatched its request for
`name` (so the trimmed input was non-empty and absent from the cache) and the
cached database list has since been refreshed to a server list containing
`name` — as `loadDatabases()` does after the success (part_000:250) — then a
second call with the same input is rejected locally as a duplicate, an action
taken before any network dispatch. -/
theorem C9_duplicateCreateRejectedLocally (cache₀ refreshed : List SourceDb)
    (input name : String)
    (h₁ : createDatabaseAction cache₀ input = CreateDbAction.sendCreateRequest name)
    (h₂ : ∃ db ∈ refreshed, db.name = name) :
    createDatabaseAction refreshed input = CreateDbAction.rejectDuplicate := by
  unfold createDatabaseAction at h₁ ⊢
  by_cases hempty : jsTrim input = ""
  · rw [if_pos hempty] at h₁
    simp at h₁
  · rw [if_neg hempty] at h₁
    rw [if_neg hempty]
    by_cases hdup : cache₀.any (fun db => db.name == jsTrim input) = true
    · rw [if_pos hdup] at h₁
      simp at h₁
    · rw [if_neg hdup] at h₁
      have hn : jsTrim input = name := by
        injection h₁
      obtain ⟨db, hdb, hname⟩ := h₂
      have hany : refreshed.any (fun db => db.name == jsTrim input) = true :=
        List.any_eq_true.2 ⟨db, hdb, beq_iff_eq.2 (hname.trans hn.symm)⟩
      rw [if_pos hany]

/-- Witness for C9: the cache refreshed after creating "X" contains X, so the
second identical call is rejected locally. -/
theorem C9_duplicateCreateRejectedLocally_witness :
    createDatabaseAction [⟨"X", 0⟩] "X" = CreateDbAction.rejectDuplicate :=
  C9_duplicateCreateRejectedLocally [] [⟨"X", 0⟩] "X" "X" (by decide) (by decide)

/-- Popup state relevant to `deleteDatabase` (part_000:271-295): the in-memory
`selectedDatabase` global and the persisted `chrome.storage.sync`
`selectedDatabase` key. -/
structure PopupSelectionState where
  selectedDatabase : Option String
  storedSelectedDatabase : Option String
deriving DecidableEq

/-- Model of the popup `deleteDatabase` (part_000:271-295): without the
`confirm(...)` confirmation the function returns before any request; a failed
DELETE throws before the selection check, leaving both fields untouched; on
success, exactly when the deleted name equals the in-memory selected database
are both the global and the stored key set to null. -/
def deleteDatabase (st : PopupSelectionState) (dbName : String)
    (confirmed serverOk : Bool) : PopupSelectionState :=
  if !confirmed then st
  else if !serverOk then st
  else if st.selectedDatabase = some dbName then ⟨none, none⟩
  else st

/-- Claim C10: a confirmed, successful delete resets the persisted default
selection to null exactly when the deleted source is the stored default
(the in-memory copy mirrors storage, as `loadSettings`, `selectDatabase` and
`deleteDatabase` itself maintain), and leaves the persisted selection
untouched when any other source is deleted. -/
theorem C10_deleteResetsDefaultSelection (st : PopupSelectionState) (dbName : String)
    (hSync : st.selectedDatabase = st.storedSelectedDatabase) :
    (st.storedSelectedDatabase = some dbName →
        (deleteDatabase st dbName true true).storedSelectedDatabase = none)
    ∧ (st.storedSelectedDatabase ≠ some dbName →
        (deleteDatabase st dbName true true).storedSelectedDatabase =
          st.storedSelectedDatabase) := by
  constructor
  · intro h
    simp [deleteDatabase, hSync, h]
  · intro h
    simp [deleteDatabase, hSync, h]

/-- Witness for C10 at a concrete stored default that is deleted. -/
theorem C10_deleteResetsDefaultSelection_witness :
    (deleteDatabase ⟨some "A", some "A"⟩ "A" true true).storedSelectedDatabase = none :=
  (C10_deleteResetsDefaultSelection ⟨some "A", some "A"⟩ "A" rfl).1 rfl
